import Mathlib

/-!
Shallow embedding of the Alert Detection & Notification Pipeline of the
IoT-Based Smart Pollution Monitoring & Alert System (Python backend).

Timestamps are modelled as integers (minutes since an arbitrary epoch);
`datetime.utcnow()` becomes an explicit `now : Int` argument threaded through
the operations.  Floats (noise, averages) are modelled as rationals.  The
SQLAlchemy tables become Lean lists of records; queries become list
operations.  Each definition is translated from the corresponding Python
function in `backend/models.py`, `backend/alerts.py` or
`backend/scheduler.py`.
-/

namespace Pollution

/-- Model of `PollutionData` row (backend/models.py). -/
structure Measurement where
  timestamp : Int
  aqi : Int
  pm25 : Option ℚ := none
  pm10 : Option ℚ := none
  noise : Option ℚ := none
  source : String := "api"
deriving DecidableEq, Repr

/-- Model of `Alert` row (backend/models.py).  `status` is the string
`"Active"` or `"Resolved"`, exactly as stored by the code. -/
structure Alert where
  id : Int
  timestamp : Int
  alert_type : String
  message : String
  status : String
  resolved_at : Option Int
deriving DecidableEq, Repr

/-- Model of `DeviceToken` row (backend/models.py). -/
structure DeviceToken where
  id : Int
  token : String
  created_at : Int
  is_active : Bool
deriving DecidableEq, Repr

/-- Alert thresholds read from the config dict in `AlertManager.__init__`
(backend/alerts.py). -/
structure AlertConfig where
  aqi_threshold : Int
  aqi_duration_minutes : Int
  noise_threshold : ℚ
  quiet_hours_start : Int
  quiet_hours_end : Int
deriving DecidableEq, Repr

/-- The default configuration values of `AlertManager.__init__`. -/
def cfgDefault : AlertConfig :=
  { aqi_threshold := 150, aqi_duration_minutes := 15, noise_threshold := 80,
    quiet_hours_start := 22, quiet_hours_end := 6 }

/-- Model of `datetime.utcnow().hour` for a time expressed in minutes since epoch. -/
def hourOf (t : Int) : Int := (t / 60) % 24

/-- The quiet-hours test of `check_noise_alert` / `_auto_resolve_alerts`
(backend/alerts.py): `current_hour >= quiet_hours_start or
current_hour < quiet_hours_end`. -/
def is_quiet_hours (cfg : AlertConfig) (h : Int) : Bool :=
  decide (h ≥ cfg.quiet_hours_start) || decide (h < cfg.quiet_hours_end)

/-- Model of `PollutionData.get_latest` (backend/models.py): the record with the
greatest timestamp (first of the descending-order query). -/
def get_latest (ms : List Measurement) : Option Measurement :=
  ms.foldl (fun acc m =>
    match acc with
    | none => some m
    | some b => if m.timestamp > b.timestamp then some m else some b) none

/-- Model of `Alert.query.filter_by(alert_type=t, status=Active).first()`
(backend/alerts.py). -/
def find_active (t : String) (alerts : List Alert) : Option Alert :=
  alerts.find? (fun a => decide (a.alert_type = t ∧ a.status = "Active"))

/-- Number of Active alert records of a given type. -/
def count_active (t : String) (alerts : List Alert) : Nat :=
  (alerts.filter (fun a => decide (a.alert_type = t ∧ a.status = "Active"))).length

/-- The autoincrement primary key assigned to a freshly inserted row. -/
def next_id (alerts : List Alert) : Int :=
  (alerts.foldl (fun m a => max m a.id) 0) + 1

/-- Model of `Alert.resolve` (backend/models.py): unconditionally sets
`status=Resolved` and `resolved_at=utcnow()`. -/
def Alert.resolve (now : Int) (a : Alert) : Alert :=
  { a with status := "Resolved", resolved_at := some now }

/-- Resolve a record when it is an Active record of the given type; used to
model the `for alert in active_..._alerts: alert.resolve()` loops of
`_auto_resolve_alerts` as a map over the table. -/
def resolve_if (t : String) (now : Int) (a : Alert) : Alert :=
  if a.alert_type = t ∧ a.status = "Active" then Alert.resolve now a else a

/-- The trailing window queried by `check_aqi_alert`: all records with
`timestamp >= utcnow() - timedelta(minutes=aqi_duration_minutes)`. -/
def recent_window (cfg : AlertConfig) (now : Int) (ms : List Measurement) :
    List Measurement :=
  ms.filter (fun m => decide (m.timestamp ≥ now - cfg.aqi_duration_minutes))

/-- Sum of the aqi values of a list of measurements. -/
def sum_aqi (ms : List Measurement) : Int :=
  ms.foldl (fun s m => s + m.aqi) 0

/-- Model of `avg_aqi = sum(r.aqi for r in recent_records) / len(recent_records)`. -/
def avg_aqi (ms : List Measurement) : ℚ :=
  (sum_aqi ms : ℚ) / (ms.length : ℚ)

/-- Rounding of the fraction `s / n` (with `n > 0`) as done by the Python
format spec `.0f`:
round half to even, computed on the exact rational value in integer
arithmetic.  `s / (n : Int)` is floor division for positive `n`. -/
def round_div_half_even (s : Int) (n : Nat) : Int :=
  let f := s / (n : Int)
  let r := s - f * (n : Int)
  if 2 * r < (n : Int) then f
  else if (n : Int) < 2 * r then f + 1
  else if f % 2 = 0 then f else f + 1

/-- The f-string of the high-AQI alert message in `check_aqi_alert`. -/
def mk_aqi_message (thr dur avgR : Int) : String :=
  "AQI has exceeded " ++ toString thr ++ " continuously for " ++
    toString dur ++ " minutes. Current average: " ++ toString avgR

/-- Rounding of a nonnegative rational as done by the Python format spec
`.1f`: one decimal place,
half-to-even. -/
def fmt_one_decimal (q : ℚ) : String :=
  let n := round_div_half_even (q.num * 10) q.den
  toString (n / 10) ++ "." ++ toString ((n % 10).natAbs)

/-- The f-string of the high-noise alert message in `check_noise_alert`. -/
def mk_noise_message (n : ℚ) (thr : ℚ) : String :=
  "Noise level (" ++ fmt_one_decimal n ++ " dB) has exceeded " ++
    toString thr.num ++ " dB during quiet hours (10 PM - 6 AM)"

/-- The alert row inserted by `check_aqi_alert` when it fires. -/
def new_aqi_alert (cfg : AlertConfig) (now : Int) (ms : List Measurement)
    (alerts : List Alert) : Alert :=
  { id := next_id alerts, timestamp := now, alert_type := "high_aqi",
    message := mk_aqi_message cfg.aqi_threshold cfg.aqi_duration_minutes
      (round_div_half_even (sum_aqi (recent_window cfg now ms))
        (recent_window cfg now ms).length),
    status := "Active", resolved_at := none }

/-- Model of `AlertManager.check_aqi_alert` (backend/alerts.py): skip when the
window is empty, when some sample is not above threshold, or when an Active
`high_aqi` record exists; otherwise insert one new Active record. -/
def check_aqi_alert (cfg : AlertConfig) (now : Int) (ms : List Measurement)
    (alerts : List Alert) : Option Alert × List Alert :=
  if recent_window cfg now ms = [] then (none, alerts)
  else if ¬ (∀ m ∈ recent_window cfg now ms, cfg.aqi_threshold < m.aqi) then
    (none, alerts)
  else if (find_active "high_aqi" alerts).isSome then (none, alerts)
  else (some (new_aqi_alert cfg now ms alerts),
        alerts ++ [new_aqi_alert cfg now ms alerts])

/-- The alert row inserted by `check_noise_alert` when it fires. -/
def new_noise_alert (cfg : AlertConfig) (now : Int) (n : ℚ)
    (alerts : List Alert) : Alert :=
  { id := next_id alerts, timestamp := now, alert_type := "high_noise",
    message := mk_noise_message n cfg.noise_threshold,
    status := "Active", resolved_at := none }

/-- Model of `AlertManager.check_noise_alert` (backend/alerts.py). -/
def check_noise_alert (cfg : AlertConfig) (now : Int) (ms : List Measurement)
    (alerts : List Alert) : Option Alert × List Alert :=
  if ¬ (is_quiet_hours cfg (hourOf now) = true) then (none, alerts)
  else
    match get_latest ms with
    | none => (none, alerts)
    | some latest =>
      match latest.noise with
      | none => (none, alerts)
      | some n =>
        if n ≤ cfg.noise_threshold then (none, alerts)
        else if (find_active "high_noise" alerts).isSome then (none, alerts)
        else (some (new_noise_alert cfg now n alerts),
              alerts ++ [new_noise_alert cfg now n alerts])

/-- First block of `_auto_resolve_alerts`: when the latest aqi is at or
below threshold, resolve every Active high_aqi record. -/
def resolve_aqi_pass (cfg : AlertConfig) (now : Int) (latest : Measurement)
    (alerts : List Alert) : List Alert :=
  if latest.aqi ≤ cfg.aqi_threshold
  then alerts.map (resolve_if "high_aqi" now)
  else alerts

/-- The `should_resolve_noise` condition of `_auto_resolve_alerts`:
`(latest.noise is not None and latest.noise <= noise_threshold) or not
is_quiet_hours`. -/
def should_resolve_noise (cfg : AlertConfig) (now : Int)
    (latest : Measurement) : Bool :=
  (match latest.noise with
   | some n => decide (n ≤ cfg.noise_threshold)
   | none => false) || !(is_quiet_hours cfg (hourOf now))

/-- Second block of `_auto_resolve_alerts`: when the noise condition is
back to normal (or outside quiet hours), resolve every Active high_noise
record. -/
def resolve_noise_pass (cfg : AlertConfig) (now : Int) (latest : Measurement)
    (alerts : List Alert) : List Alert :=
  if should_resolve_noise cfg now latest = true
  then alerts.map (resolve_if "high_noise" now)
  else alerts

/-- Model of `AlertManager._auto_resolve_alerts` (backend/alerts.py): returns
immediately when the store is empty; otherwise runs the high_aqi pass then
the high_noise pass. -/
def auto_resolve_alerts (cfg : AlertConfig) (now : Int)
    (ms : List Measurement) (alerts : List Alert) : List Alert :=
  match get_latest ms with
  | none => alerts
  | some latest =>
    resolve_noise_pass cfg now latest (resolve_aqi_pass cfg now latest alerts)

/-- Model of `AlertManager.check_all_alerts` (backend/alerts.py): AQI check, then
noise check, then the auto-resolve pass; returns the triggered alerts and
the final table. -/
def check_all_alerts (cfg : AlertConfig) (now : Int) (ms : List Measurement)
    (alerts : List Alert) : List Alert × List Alert :=
  let r1 := check_aqi_alert cfg now ms alerts
  let r2 := check_noise_alert cfg now ms r1.2
  let s3 := auto_resolve_alerts cfg now ms r2.2
  ((r1.1.toList ++ r2.1.toList), s3)

/-- Model of `AlertManager.create_manual_alert` (backend/alerts.py): inserts an
Active record of the given type unconditionally. -/
def create_manual_alert (t msg : String) (now : Int) (alerts : List Alert) :
    Alert × List Alert :=
  let a : Alert := { id := next_id alerts, timestamp := now, alert_type := t,
                     message := msg, status := "Active", resolved_at := none }
  (a, alerts ++ [a])

/-- Model of `AlertManager.resolve_alert` (backend/alerts.py): look the record up by
primary key; if found, resolve it and return True, else return False. -/
def resolve_alert (now : Int) (i : Int) (alerts : List Alert) :
    Bool × List Alert :=
  if alerts.any (fun a => decide (a.id = i))
  then (true, alerts.map (fun a => if a.id = i then Alert.resolve now a else a))
  else (false, alerts)

/-- Model of `DeviceToken.get_active_tokens` (backend/models.py). -/
def get_active_tokens (db : List DeviceToken) : List DeviceToken :=
  db.filter (fun r => r.is_active)

/-- Flip a record to inactive, leaving every other field intact. -/
def DeviceToken.deactivate (r : DeviceToken) : DeviceToken :=
  { r with is_active := false }

/-- Model of `DeviceToken.deactivate_token` (backend/models.py): find the record
with the given token (tokens are unique in the table); if present, set
`is_active = False` and return True, else return False. -/
def deactivate_token (t : String) : List DeviceToken → Bool × List DeviceToken
  | [] => (false, [])
  | r :: rest =>
    if r.token = t then (true, r.deactivate :: rest)
    else
      let p := deactivate_token t rest
      (p.1, r :: p.2)

/-- Outcome of one `messaging.send` call in `_send_push_notification`:
success, or an exception whose text does / does not contain
`NotRegistered` / `InvalidRegistration`. -/
inductive SendResult where
  | ok : SendResult
  | err (permanentInvalid : Bool) : SendResult
deriving DecidableEq, Repr

/-- Whether a send outcome is a permanently-invalid-token failure. -/
def isPermFail : SendResult → Bool
  | .err true => true
  | _ => false

/-- The per-token loop of `_send_push_notification`: each token is attempted
independently; successes and failures are counted; a permanently-invalid
failure deactivates that token in the table. -/
def send_loop (send : String → SendResult) :
    List String → Nat × Nat × List DeviceToken → Nat × Nat × List DeviceToken
  | [], st => st
  | t :: ts, (s, f, db) =>
    match send t with
    | .ok => send_loop send ts (s + 1, f, db)
    | .err true => send_loop send ts (s, f + 1, (deactivate_token t db).2)
    | .err false => send_loop send ts (s, f + 1, db)

/-- Model of `AlertManager._send_push_notification` (backend/alerts.py), with the
Firebase sink abstracted as `send`: read the active tokens; if none, return
untouched; otherwise run the delivery loop starting from zero counts. -/
def send_push_notification (send : String → SendResult)
    (db : List DeviceToken) : Nat × Nat × List DeviceToken :=
  let tokens := get_active_tokens db
  if tokens = [] then (0, 0, db)
  else send_loop send (tokens.map (fun r => r.token)) (0, 0, db)

/-- JSON body returned by the AQICN feed, reduced to the fields the fetcher
reads: top-level `status` and the `aqi` / `iaqi.pm25.v` / `iaqi.pm10.v`
values, each possibly absent. -/
structure ApiResponse where
  status : String
  aqi : Option Int
  pm25 : Option ℚ
  pm10 : Option ℚ
deriving DecidableEq, Repr

/-- Network-level failures of the HTTP GET in `fetch_current_aqi`. -/
inductive NetError where
  | timeout : NetError
  | transport : NetError
deriving DecidableEq, Repr

/-- Dictionary returned by `AQIDataFetcher.fetch_current_aqi` on the
successful path (backend/scheduler.py); `aqi` is whatever
`api_data.get` on the aqi key yielded, possibly None. -/
structure FetchResult where
  aqi : Option Int
  pm25 : Option ℚ
  pm10 : Option ℚ
  timestamp : Int
  source : String
deriving DecidableEq, Repr

/-- Model of `AQIDataFetcher.fetch_current_aqi` (backend/scheduler.py): any network
exception yields None; a body whose `status` differs from ok yields None;
otherwise the parsed dictionary is returned — with `aqi` still optional. -/
def fetch_current_aqi (now : Int) :
    Except NetError ApiResponse → Option FetchResult
  | .error _ => none
  | .ok resp =>
    if resp.status ≠ "ok" then none
    else some { aqi := resp.aqi, pm25 := resp.pm25, pm10 := resp.pm10,
                timestamp := now, source := "api" }

/-- Model of `PollutionScheduler.fetch_and_store_aqi` (backend/scheduler.py): on
fetch failure or on a missing aqi value, store nothing; otherwise append the
new measurement and run the alert checks. -/
def fetch_and_store_aqi (cfg : AlertConfig) (now : Int)
    (net : Except NetError ApiResponse) (ms : List Measurement)
    (alerts : List Alert) : List Measurement × List Alert :=
  match fetch_current_aqi now net with
  | none => (ms, alerts)
  | some r =>
    match r.aqi with
    | none => (ms, alerts)
    | some v =>
      let m : Measurement := { timestamp := r.timestamp, aqi := v,
                               pm25 := r.pm25, pm10 := r.pm10,
                               noise := none, source := "api" }
      let ms2 := ms ++ [m]
      (ms2, (check_all_alerts cfg now ms2 alerts).2)

/-- Alert states reachable from an empty table through the automatic
evaluation cycle (`check_all_alerts`, with arbitrary measurement history and
clock at each step) and manual resolution (`resolve_alert`). -/
inductive ReachableAuto (cfg : AlertConfig) : List Alert → Prop
  | init : ReachableAuto cfg []
  | step_check (now : Int) (ms : List Measurement) {s : List Alert} :
      ReachableAuto cfg s → ReachableAuto cfg (check_all_alerts cfg now ms s).2
  | step_resolve (now i : Int) {s : List Alert} :
      ReachableAuto cfg s → ReachableAuto cfg (resolve_alert now i s).2

/-- Alert states reachable from an empty table through all four public
operations, `create_manual_alert` included. -/
inductive ReachableFull (cfg : AlertConfig) : List Alert → Prop
  | init : ReachableFull cfg []
  | step_check (now : Int) (ms : List Measurement) {s : List Alert} :
      ReachableFull cfg s → ReachableFull cfg (check_all_alerts cfg now ms s).2
  | step_resolve (now i : Int) {s : List Alert} :
      ReachableFull cfg s → ReachableFull cfg (resolve_alert now i s).2
  | step_manual (t msg : String) (now : Int) {s : List Alert} :
      ReachableFull cfg s → ReachableFull cfg (create_manual_alert t msg now s).2

/-! Concrete inputs used by the witnesses and counterexamples. -/

/-- Three measurements at 14, 9 and 4 minutes before `now = 1000`, with aqi
values 160, 170 and 180 (the scenario of the spec). -/
def msEx : List Measurement :=
  [ { timestamp := 986, aqi := 160 },
    { timestamp := 991, aqi := 170 },
    { timestamp := 996, aqi := 180 } ]

/-- A single low-AQI measurement (aqi 120). -/
def mLow : Measurement := { timestamp := 0, aqi := 120 }

/-- A single high-AQI measurement with no noise value. -/
def mHigh : Measurement := { timestamp := 0, aqi := 200 }

/-- An Active high_aqi alert record. -/
def activeAqiEx : Alert :=
  { id := 1, timestamp := 0, alert_type := "high_aqi", message := "m",
    status := "Active", resolved_at := none }

/-- An Active high_noise alert record. -/
def noiseAlertEx : Alert :=
  { id := 1, timestamp := 0, alert_type := "high_noise", message := "m",
    status := "Active", resolved_at := none }

/-- An already-Resolved alert record with an old resolution time. -/
def resolvedAlertEx : Alert :=
  { id := 1, timestamp := 0, alert_type := "high_aqi", message := "m",
    status := "Resolved", resolved_at := some 5 }

/-- The alert table produced by two manual creations of a high_aqi alert. -/
def badState : List Alert :=
  (create_manual_alert "high_aqi" "manual" 0
    ((create_manual_alert "high_aqi" "manual" 0 []).2)).2

/-- Three registered, active device tokens. -/
def dbEx : List DeviceToken :=
  [ { id := 1, token := "a", created_at := 0, is_active := true },
    { id := 2, token := "b", created_at := 0, is_active := true },
    { id := 3, token := "c", created_at := 0, is_active := true } ]

/-- A sink in which exactly the token b fails with a permanently-invalid
error. -/
def sendEx : String → SendResult :=
  fun t => if t = "b" then .err true else .ok

/-- An upstream body with ok status but no aqi field. -/
def malformedResp : ApiResponse :=
  { status := "ok", aqi := none, pm25 := none, pm10 := none }

/-- The dictionary `fetch_current_aqi` builds from `malformedResp`. -/
def malformedFetchResult : FetchResult :=
  { aqi := none, pm25 := none, pm10 := none, timestamp := 0, source := "api" }

/-! Helper lemmas. -/

theorem count_active_append (t : String) (l : List Alert) (a : Alert) :
    count_active t (l ++ [a]) =
      count_active t l +
        (if a.alert_type = t ∧ a.status = "Active" then 1 else 0) := by
  unfold count_active
  rw [List.filter_append, List.length_append]
  congr 1
  by_cases h : a.alert_type = t ∧ a.status = "Active"
  · simp [h]
  · simp [h]

theorem count_active_eq_zero_of_find_none {t : String} {l : List Alert}
    (h : find_active t l = none) : count_active t l = 0 := by
  unfold find_active at h
  rw [List.find?_eq_none] at h
  unfold count_active
  rw [List.length_eq_zero, List.filter_eq_nil_iff]
  intro a ha
  simpa using h a ha

theorem count_active_map_le (t : String) (f : Alert → Alert)
    (hf : ∀ a, f a = a ∨ (f a).status = "Resolved") (l : List Alert) :
    count_active t (l.map f) ≤ count_active t l := by
  induction l with
  | nil => simp [count_active]
  | cons a l ih =>
    rw [List.map_cons]
    unfold count_active at *
    rw [List.filter_cons, List.filter_cons]
    rcases hf a with h | h
    · rw [h]
      by_cases hp : a.alert_type = t ∧ a.status = "Active"
      · simp only [hp, decide_eq_true_eq, if_pos hp]
        simpa using ih
      · simp only [decide_eq_true_eq, if_neg hp]
        exact ih
    · have hfa : ¬ ((f a).alert_type = t ∧ (f a).status = "Active") := by
        intro hc
        rw [h] at hc
        exact absurd hc.2 (by decide)
      simp only [decide_eq_true_eq, if_neg hfa]
      by_cases hp : a.alert_type = t ∧ a.status = "Active"
      · simp only [if_pos hp]
        exact le_trans ih (by simp)
      · simp only [if_neg hp]
        exact ih

theorem resolve_if_le (t t2 : String) (now : Int) (l : List Alert) :
    count_active t (l.map (resolve_if t2 now)) ≤ count_active t l := by
  apply count_active_map_le
  intro a
  unfold resolve_if
  by_cases h : a.alert_type = t2 ∧ a.status = "Active"
  · right
    rw [if_pos h]
    rfl
  · left
    rw [if_neg h]

theorem check_aqi_alert_cases (cfg : AlertConfig) (now : Int)
    (ms : List Measurement) (alerts : List Alert) :
    (check_aqi_alert cfg now ms alerts).2 = alerts ∨
    (find_active "high_aqi" alerts = none ∧
     (check_aqi_alert cfg now ms alerts).2 =
       alerts ++ [new_aqi_alert cfg now ms alerts]) := by
  unfold check_aqi_alert
  by_cases h1 : recent_window cfg now ms = []
  · rw [if_pos h1]; left; rfl
  · rw [if_neg h1]
    by_cases h2 : ∀ m ∈ recent_window cfg now ms, cfg.aqi_threshold < m.aqi
    · rw [if_neg (not_not_intro h2)]
      by_cases h3 : (find_active "high_aqi" alerts).isSome = true
      · rw [if_pos h3]; left; rfl
      · rw [if_neg h3]; right
        exact ⟨Option.not_isSome_iff_eq_none.mp h3, rfl⟩
    · rw [if_pos h2]; left; rfl

theorem check_noise_alert_cases (cfg : AlertConfig) (now : Int)
    (ms : List Measurement) (alerts : List Alert) :
    (check_noise_alert cfg now ms alerts).2 = alerts ∨
    (∃ n : ℚ, find_active "high_noise" alerts = none ∧
      (check_noise_alert cfg now ms alerts).2 =
        alerts ++ [new_noise_alert cfg now n alerts]) := by
  unfold check_noise_alert
  by_cases h1 : is_quiet_hours cfg (hourOf now) = true
  · rw [if_neg (not_not_intro h1)]
    cases hms : get_latest ms with
    | none => left; rfl
    | some latest =>
      dsimp only
      cases hn : latest.noise with
      | none => left; rfl
      | some n =>
        dsimp only
        by_cases h2 : n ≤ cfg.noise_threshold
        · rw [if_pos h2]; left; rfl
        · rw [if_neg h2]
          by_cases h3 : (find_active "high_noise" alerts).isSome = true
          · rw [if_pos h3]; left; rfl
          · rw [if_neg h3]; right
            exact ⟨n, Option.not_isSome_iff_eq_none.mp h3, rfl⟩
  · rw [if_pos h1]; left; rfl

theorem count_active_append_le {alerts : List Alert} (a : Alert)
    (h : ∀ t, count_active t alerts ≤ 1)
    (hf : find_active a.alert_type alerts = none) :
    ∀ t, count_active t (alerts ++ [a]) ≤ 1 := by
  intro t
  rw [count_active_append]
  by_cases hm : a.alert_type = t ∧ a.status = "Active"
  · rw [if_pos hm]
    have h0 : count_active t alerts = 0 := by
      rw [← hm.1]
      exact count_active_eq_zero_of_find_none hf
    omega
  · rw [if_neg hm]
    have := h t
    omega

theorem check_aqi_alert_inv (cfg : AlertConfig) (now : Int)
    (ms : List Measurement) {alerts : List Alert}
    (h : ∀ t, count_active t alerts ≤ 1) :
    ∀ t, count_active t (check_aqi_alert cfg now ms alerts).2 ≤ 1 := by
  rcases check_aqi_alert_cases cfg now ms alerts with he | ⟨hf, he⟩
  · rw [he]; exact h
  · rw [he]
    exact count_active_append_le _ h hf

theorem check_noise_alert_inv (cfg : AlertConfig) (now : Int)
    (ms : List Measurement) {alerts : List Alert}
    (h : ∀ t, count_active t alerts ≤ 1) :
    ∀ t, count_active t (check_noise_alert cfg now ms alerts).2 ≤ 1 := by
  rcases check_noise_alert_cases cfg now ms alerts with he | ⟨n, hf, he⟩
  · rw [he]; exact h
  · rw [he]
    exact count_active_append_le _ h hf

theorem resolve_aqi_pass_le (cfg : AlertConfig) (now : Int)
    (latest : Measurement) (alerts : List Alert) (t : String) :
    count_active t (resolve_aqi_pass cfg now latest alerts) ≤
      count_active t alerts := by
  unfold resolve_aqi_pass
  split_ifs with h
  · exact resolve_if_le _ _ _ _
  · exact le_rfl

theorem resolve_noise_pass_le (cfg : AlertConfig) (now : Int)
    (latest : Measurement) (alerts : List Alert) (t : String) :
    count_active t (resolve_noise_pass cfg now latest alerts) ≤
      count_active t alerts := by
  unfold resolve_noise_pass
  split_ifs with h
  · exact resolve_if_le _ _ _ _
  · exact le_rfl

theorem auto_resolve_alerts_le (cfg : AlertConfig) (now : Int)
    (ms : List Measurement) (alerts : List Alert) (t : String) :
    count_active t (auto_resolve_alerts cfg now ms alerts) ≤
      count_active t alerts := by
  unfold auto_resolve_alerts
  cases hms : get_latest ms with
  | none => exact le_rfl
  | some latest =>
    dsimp only
    exact le_trans (resolve_noise_pass_le cfg now latest _ t)
      (resolve_aqi_pass_le cfg now latest alerts t)

theorem resolve_alert_le (now i : Int) (alerts : List Alert) (t : String) :
    count_active t (resolve_alert now i alerts).2 ≤ count_active t alerts := by
  unfold resolve_alert
  split_ifs with h
  · apply count_active_map_le
    intro a
    by_cases ha : a.id = i
    · right
      rw [if_pos ha]
      rfl
    · left
      rw [if_neg ha]
  · exact le_rfl

theorem check_all_alerts_inv (cfg : AlertConfig) (now : Int)
    (ms : List Measurement) {alerts : List Alert}
    (h : ∀ t, count_active t alerts ≤ 1) :
    ∀ t, count_active t (check_all_alerts cfg now ms alerts).2 ≤ 1 := by
  intro t
  unfold check_all_alerts
  simp only
  exact le_trans (auto_resolve_alerts_le cfg now ms _ t)
    (check_noise_alert_inv cfg now ms (check_aqi_alert_inv cfg now ms h) t)

theorem find_active_append_isSome {t : String} (l : List Alert) {a : Alert}
    (ha : a.alert_type = t ∧ a.status = "Active") :
    (find_active t (l ++ [a])).isSome = true := by
  unfold find_active
  rw [List.find?_isSome]
  exact ⟨a, by simp, by simpa using ha⟩

theorem check_aqi_alert_creates (cfg : AlertConfig) (now : Int)
    (ms : List Measurement) {alerts : List Alert}
    (h1 : recent_window cfg now ms ≠ [])
    (h2 : ∀ m ∈ recent_window cfg now ms, cfg.aqi_threshold < m.aqi)
    (h3 : find_active "high_aqi" alerts = none) :
    check_aqi_alert cfg now ms alerts =
      (some (new_aqi_alert cfg now ms alerts),
       alerts ++ [new_aqi_alert cfg now ms alerts]) := by
  unfold check_aqi_alert
  rw [if_neg h1, if_neg (not_not_intro h2), if_neg (by simp [h3])]

theorem resolve_noise_pass_length (cfg : AlertConfig) (now : Int)
    (latest : Measurement) (l : List Alert) :
    (resolve_noise_pass cfg now latest l).length = l.length := by
  unfold resolve_noise_pass
  split_ifs <;> simp

theorem resolve_aqi_pass_length (cfg : AlertConfig) (now : Int)
    (latest : Measurement) (l : List Alert) :
    (resolve_aqi_pass cfg now latest l).length = l.length := by
  unfold resolve_aqi_pass
  split_ifs <;> simp

theorem resolve_noise_pass_getElem (cfg : AlertConfig) (now : Int)
    (latest : Measurement) (l : List Alert) (i : Nat) {b : Alert}
    (hb : l[i]? = some b) (hbt : b.alert_type ≠ "high_noise") :
    (resolve_noise_pass cfg now latest l)[i]? = some b := by
  unfold resolve_noise_pass
  split_ifs with h
  · rw [List.getElem?_map, hb]
    simp only [Option.map_some']
    rw [resolve_if, if_neg (fun hc => hbt hc.1)]
  · exact hb

theorem round_div_half_even_nearest (s : Int) (n : Nat) (hn : 0 < n) :
    |(round_div_half_even s n : ℚ) - (s : ℚ) / (n : ℚ)| ≤ 1/2 := by
  have hnq : (0:ℚ) < (n:ℚ) := by exact_mod_cast hn
  have hnzZ : ((n : ℕ) : ℤ) ≠ 0 := by exact_mod_cast hn.ne'
  have hrmod : s - s / ((n : ℕ) : ℤ) * ((n : ℕ) : ℤ) = s % ((n : ℕ) : ℤ) := by
    rw [Int.emod_def]
    ring
  have hr0 : 0 ≤ s - s / ((n : ℕ) : ℤ) * ((n : ℕ) : ℤ) := by
    rw [hrmod]
    exact Int.emod_nonneg s hnzZ
  have hrn : s - s / ((n : ℕ) : ℤ) * ((n : ℕ) : ℤ) < ((n : ℕ) : ℤ) := by
    rw [hrmod]
    exact Int.emod_lt_of_pos s (by exact_mod_cast hn)
  set f : Int := s / ((n : ℕ) : ℤ) with hf
  set r : Int := s - f * ((n : ℕ) : ℤ) with hr
  have hsq : (s : ℚ) = (f : ℚ) * (n : ℚ) + (r : ℚ) := by
    have h0 : (r : ℚ) = (s : ℚ) - (f : ℚ) * (n : ℚ) := by
      rw [hr]
      push_cast
      ring
    linarith
  have hdiv : (s : ℚ) / (n : ℚ) = (f : ℚ) + (r : ℚ) / (n : ℚ) := by
    rw [hsq]
    field_simp
  have hr0q : (0:ℚ) ≤ (r:ℚ) := by exact_mod_cast hr0
  have hrnq : (r:ℚ) < (n:ℚ) := by exact_mod_cast hrn
  have hres : round_div_half_even s n =
      if 2 * r < ((n : ℕ) : ℤ) then f
      else if ((n : ℕ) : ℤ) < 2 * r then f + 1
      else if f % 2 = 0 then f else f + 1 := rfl
  rw [hres]
  split_ifs with h1 h2 h3
  · have hhalf : (r:ℚ)/(n:ℚ) ≤ 1/2 := by
      rw [div_le_iff₀ hnq]
      have hc : (2*(r:ℚ)) < (n:ℚ) := by exact_mod_cast h1
      linarith
    have hnn : (0:ℚ) ≤ (r:ℚ)/(n:ℚ) := div_nonneg hr0q hnq.le
    rw [hdiv, abs_le]
    constructor <;> linarith
  · have hhalf : (1:ℚ)/2 ≤ (r:ℚ)/(n:ℚ) := by
      rw [le_div_iff₀ hnq]
      have hc : (n:ℚ) < 2*(r:ℚ) := by exact_mod_cast h2
      linarith
    have hlt1 : (r:ℚ)/(n:ℚ) < 1 := (div_lt_one hnq).mpr hrnq
    rw [hdiv, abs_le]
    push_cast
    constructor <;> linarith
  · have htie : (2*r : ℤ) = ((n : ℕ) : ℤ) := le_antisymm (not_lt.mp h2) (not_lt.mp h1)
    have hhalf : (r:ℚ)/(n:ℚ) = 1/2 := by
      rw [div_eq_div_iff hnq.ne' (two_ne_zero)]
      have hc : (2*(r:ℚ)) = (n:ℚ) := by exact_mod_cast htie
      linarith
    rw [hdiv, abs_le]
    constructor <;> linarith
  · have htie : (2*r : ℤ) = ((n : ℕ) : ℤ) := le_antisymm (not_lt.mp h2) (not_lt.mp h1)
    have hhalf : (r:ℚ)/(n:ℚ) = 1/2 := by
      rw [div_eq_div_iff hnq.ne' (two_ne_zero)]
      have hc : (2*(r:ℚ)) = (n:ℚ) := by exact_mod_cast htie
      linarith
    rw [hdiv, abs_le]
    push_cast
    constructor <;> linarith

/-! Claim theorems. -/

/-- C1 (counterexample): the at-most-one-Active-per-type invariant fails on
the code as soon as `create_manual_alert` is among the allowed operations —
two manual creations of a high_aqi alert from the empty table give a state
reachable through the public operations that holds two Active high_aqi
records. -/
theorem C1_counterexample :
    ReachableFull cfgDefault badState ∧ count_active "high_aqi" badState = 2 := by
  constructor
  · show ReachableFull cfgDefault
      (create_manual_alert "high_aqi" "manual" 0
        ((create_manual_alert "high_aqi" "manual" 0 []).2)).2
    exact ReachableFull.step_manual _ _ _
      (ReachableFull.step_manual _ _ _ ReachableFull.init)
  · decide

/-- C1 (amended): for every AlertType, every state reachable from the empty
table through the automatic evaluation cycle (`check_all_alerts`) and
resolution (`resolve_alert`, manual or automatic) holds at most one Active
record of that type; `create_manual_alert` is excluded, since it inserts an
Active record unconditionally. -/
theorem C1_theorem (cfg : AlertConfig) (s : List Alert)
    (h : ReachableAuto cfg s) : ∀ t, count_active t s ≤ 1 := by
  induction h with
  | init => intro t; simp [count_active]
  | step_check now ms _ ih => exact check_all_alerts_inv cfg now ms ih
  | step_resolve now i _ ih =>
    intro t
    exact le_trans (resolve_alert_le now i _ t) (ih t)

/-- Witness for C1: one automatic evaluation step from the empty table. -/
theorem C1_witness :
    count_active "high_aqi" (check_all_alerts cfgDefault 1000 msEx []).2 ≤ 1 :=
  C1_theorem cfgDefault (check_all_alerts cfgDefault 1000 msEx []).2
    (ReachableAuto.step_check 1000 msEx ReachableAuto.init) "high_aqi"

/-- C5: an hour is quiet exactly when it is at or after `quiet_hours_start`
or strictly before `quiet_hours_end`, for every configuration; with the
default configuration (start 22, end 6) hour 23 is quiet while hours 6, 10
and 21 are not. -/
theorem C5_theorem :
    (∀ (cfg : AlertConfig) (h : Int),
      is_quiet_hours cfg h = true ↔
        (h ≥ cfg.quiet_hours_start ∨ h < cfg.quiet_hours_end)) ∧
    is_quiet_hours cfgDefault 23 = true ∧
    is_quiet_hours cfgDefault 6 = false ∧
    is_quiet_hours cfgDefault 10 = false ∧
    is_quiet_hours cfgDefault 21 = false := by
  refine ⟨fun cfg h => ?_, by decide, by decide, by decide, by decide⟩
  simp [is_quiet_hours]

/-- C6 (counterexample): `Alert.resolve` on a record that is not Active is
not a no-op — the record keeps status Resolved but its `resolved_at` field
is re-stamped to the current time. -/
theorem C6_counterexample :
    resolvedAlertEx.status ≠ "Active" ∧
    Alert.resolve 10 resolvedAlertEx ≠ resolvedAlertEx ∧
    (Alert.resolve 10 resolvedAlertEx).resolved_at = some 10 ∧
    resolvedAlertEx.resolved_at = some 5 := by
  refine ⟨by decide, ?_, rfl, rfl⟩
  intro hc
  have := congrArg Alert.resolved_at hc
  simp [Alert.resolve, resolvedAlertEx] at this

/-- C6 (amended): `Alert.resolve` unconditionally sets status to Resolved
and `resolved_at` to the current time, never raises, and leaves every other
field unchanged; on a non-Active record the status is unchanged but the
resolution time is re-stamped rather than preserved. -/
theorem C6_theorem (now : Int) (a : Alert) :
    (Alert.resolve now a).status = "Resolved" ∧
    (Alert.resolve now a).resolved_at = some now ∧
    (Alert.resolve now a).id = a.id ∧
    (Alert.resolve now a).alert_type = a.alert_type ∧
    (Alert.resolve now a).message = a.message ∧
    (Alert.resolve now a).timestamp = a.timestamp :=
  ⟨rfl, rfl, rfl, rfl, rfl, rfl⟩

/-- C2: when the trailing window is non-empty, every sample in it is above
threshold and no Active high_aqi record exists, one run of the AQI
evaluation appends exactly one new Active high_aqi record; an immediate
second run on the resulting state creates nothing and leaves the table
unchanged. -/
theorem C2_theorem (cfg : AlertConfig) (now : Int) (ms : List Measurement)
    (alerts : List Alert)
    (h1 : recent_window cfg now ms ≠ [])
    (h2 : ∀ m ∈ recent_window cfg now ms, cfg.aqi_threshold < m.aqi)
    (h3 : find_active "high_aqi" alerts = none) :
    check_aqi_alert cfg now ms alerts =
      (some (new_aqi_alert cfg now ms alerts),
       alerts ++ [new_aqi_alert cfg now ms alerts]) ∧
    (new_aqi_alert cfg now ms alerts).alert_type = "high_aqi" ∧
    (new_aqi_alert cfg now ms alerts).status = "Active" ∧
    check_aqi_alert cfg now ms (alerts ++ [new_aqi_alert cfg now ms alerts]) =
      (none, alerts ++ [new_aqi_alert cfg now ms alerts]) := by
  refine ⟨check_aqi_alert_creates cfg now ms h1 h2 h3, rfl, rfl, ?_⟩
  unfold check_aqi_alert
  have hs : (find_active "high_aqi"
      (alerts ++ [new_aqi_alert cfg now ms alerts])).isSome = true :=
    find_active_append_isSome alerts ⟨rfl, rfl⟩
  rw [if_neg h1, if_neg (not_not_intro h2), if_pos hs]

/-- Witness for C2: the three-measurement window of the spec scenario. -/
theorem C2_witness :
    recent_window cfgDefault 1000 msEx ≠ [] ∧
    (∀ m ∈ recent_window cfgDefault 1000 msEx, cfgDefault.aqi_threshold < m.aqi) ∧
    find_active "high_aqi" ([] : List Alert) = none ∧
    (check_aqi_alert cfgDefault 1000 msEx [] =
      (some (new_aqi_alert cfgDefault 1000 msEx []),
       [] ++ [new_aqi_alert cfgDefault 1000 msEx []]) ∧
     (new_aqi_alert cfgDefault 1000 msEx []).alert_type = "high_aqi" ∧
     (new_aqi_alert cfgDefault 1000 msEx []).status = "Active" ∧
     check_aqi_alert cfgDefault 1000 msEx
        ([] ++ [new_aqi_alert cfgDefault 1000 msEx []]) =
      (none, [] ++ [new_aqi_alert cfgDefault 1000 msEx []])) :=
  ⟨by decide, by decide, by decide,
   C2_theorem cfgDefault 1000 msEx [] (by decide) (by decide) (by decide)⟩

/-- C3: whenever a latest measurement exists and its aqi is at or below
threshold, the auto-resolve pass preserves the table length and maps every
currently-Active high_aqi record (however many) to its resolved copy, with
`resolved_at` set to the current time. -/
theorem C3_theorem (cfg : AlertConfig) (now : Int) (ms : List Measurement)
    (alerts : List Alert) (latest : Measurement)
    (hl : get_latest ms = some latest) (ha : latest.aqi ≤ cfg.aqi_threshold) :
    (auto_resolve_alerts cfg now ms alerts).length = alerts.length ∧
    ∀ (i : Nat) (a : Alert), alerts[i]? = some a →
      a.alert_type = "high_aqi" → a.status = "Active" →
      (auto_resolve_alerts cfg now ms alerts)[i]? =
        some (Alert.resolve now a) := by
  have he : auto_resolve_alerts cfg now ms alerts =
      resolve_noise_pass cfg now latest
        (resolve_aqi_pass cfg now latest alerts) := by
    unfold auto_resolve_alerts
    rw [hl]
  constructor
  · rw [he, resolve_noise_pass_length, resolve_aqi_pass_length]
  · intro i a hi haqi hact
    rw [he]
    have h1 : (resolve_aqi_pass cfg now latest alerts)[i]? =
        some (Alert.resolve now a) := by
      unfold resolve_aqi_pass
      rw [if_pos ha, List.getElem?_map, hi]
      simp [resolve_if, haqi, hact]
    apply resolve_noise_pass_getElem cfg now latest _ i h1
    simp [Alert.resolve, haqi]

/-- Witness for C3: a single Active high_aqi alert and a latest measurement
with aqi 120. -/
theorem C3_witness :
    get_latest [mLow] = some mLow ∧
    mLow.aqi ≤ cfgDefault.aqi_threshold ∧
    ((auto_resolve_alerts cfgDefault 7 [mLow] [activeAqiEx]).length =
        [activeAqiEx].length ∧
     ∀ (i : Nat) (a : Alert), [activeAqiEx][i]? = some a →
       a.alert_type = "high_aqi" → a.status = "Active" →
       (auto_resolve_alerts cfgDefault 7 [mLow] [activeAqiEx])[i]? =
         some (Alert.resolve 7 a)) :=
  ⟨by decide, by decide,
   C3_theorem cfgDefault 7 [mLow] [activeAqiEx] mLow (by decide) (by decide)⟩

/-- C4 (counterexample): with an empty measurement store the auto-resolve
pass returns immediately, so an Active high_noise record survives even
though the current hour (10) is outside quiet hours — contradicting the
claim that the resolution happens unconditionally on every cycle,
including when the store is empty. -/
theorem C4_counterexample :
    is_quiet_hours cfgDefault (hourOf 600) = false ∧
    noiseAlertEx.alert_type = "high_noise" ∧
    noiseAlertEx.status = "Active" ∧
    auto_resolve_alerts cfgDefault 600 [] [noiseAlertEx] = [noiseAlertEx] := by
  decide

/-- C4 (amended): the auto-resolve pass acts only when the measurement
store is non-empty; given a latest measurement, if its noise is at or below
threshold or the current hour is not quiet, every currently-Active
high_noise record is resolved. -/
theorem C4_theorem (cfg : AlertConfig) (now : Int) (ms : List Measurement)
    (alerts : List Alert) (latest : Measurement)
    (hl : get_latest ms = some latest)
    (hn : (∃ n, latest.noise = some n ∧ n ≤ cfg.noise_threshold) ∨
          is_quiet_hours cfg (hourOf now) = false) :
    (auto_resolve_alerts cfg now ms alerts).length = alerts.length ∧
    ∀ (i : Nat) (a : Alert), alerts[i]? = some a →
      a.alert_type = "high_noise" → a.status = "Active" →
      (auto_resolve_alerts cfg now ms alerts)[i]? =
        some (Alert.resolve now a) := by
  have he : auto_resolve_alerts cfg now ms alerts =
      resolve_noise_pass cfg now latest
        (resolve_aqi_pass cfg now latest alerts) := by
    unfold auto_resolve_alerts
    rw [hl]
  have hs : should_resolve_noise cfg now latest = true := by
    unfold should_resolve_noise
    rcases hn with ⟨n, hsome, hle⟩ | hq
    · rw [hsome]
      simp [hle]
    · rw [hq]
      simp
  constructor
  · rw [he, resolve_noise_pass_length, resolve_aqi_pass_length]
  · intro i a hi hnt hact
    rw [he]
    have h1 : (resolve_aqi_pass cfg now latest alerts)[i]? = some a := by
      unfold resolve_aqi_pass
      split_ifs with h
      · rw [List.getElem?_map, hi]
        simp [resolve_if, hnt]
      · exact hi
    unfold resolve_noise_pass
    rw [if_pos hs, List.getElem?_map, h1]
    simp [resolve_if, hnt, hact]

/-- Witness for C4: an Active high_noise alert, a store holding one
measurement, and a clock at hour 10 (outside quiet hours). -/
theorem C4_witness :
    get_latest [mHigh] = some mHigh ∧
    is_quiet_hours cfgDefault (hourOf 600) = false ∧
    ((auto_resolve_alerts cfgDefault 600 [mHigh] [noiseAlertEx]).length =
        [noiseAlertEx].length ∧
     ∀ (i : Nat) (a : Alert), [noiseAlertEx][i]? = some a →
       a.alert_type = "high_noise" → a.status = "Active" →
       (auto_resolve_alerts cfgDefault 600 [mHigh] [noiseAlertEx])[i]? =
         some (Alert.resolve 600 a)) :=
  ⟨by decide, by decide,
   C4_theorem cfgDefault 600 [mHigh] [noiseAlertEx] mHigh (by decide)
     (Or.inr (by decide))⟩

/-- C8 (counterexample): on an upstream body with ok status but no aqi
field, `fetch_current_aqi` does not fail — it returns a successful result
whose aqi is absent. -/
theorem C8_counterexample :
    fetch_current_aqi 0 (Except.ok malformedResp) = some malformedFetchResult ∧
    malformedFetchResult.aqi = none := by
  decide

/-- C8 (amended): `fetch_current_aqi` itself accepts a body without an aqi
value, returning success with aqi None; the rejection happens in the caller
`fetch_and_store_aqi`, which skips storage, so no measurement lacking an
aqi is ever stored and the state is left unchanged. -/
theorem C8_theorem (cfg : AlertConfig) (now : Int) (resp : ApiResponse)
    (ms : List Measurement) (alerts : List Alert) (h : resp.aqi = none) :
    fetch_and_store_aqi cfg now (Except.ok resp) ms alerts = (ms, alerts) := by
  unfold fetch_and_store_aqi fetch_current_aqi
  dsimp only
  by_cases hs : resp.status = "ok"
  · rw [if_neg (not_not_intro hs)]
    dsimp only
    rw [h]
  · rw [if_pos hs]

/-- Witness for C8: the malformed ok-status body. -/
theorem C8_witness :
    malformedResp.aqi = none ∧
    fetch_and_store_aqi cfgDefault 0 (Except.ok malformedResp) [] [] =
      ([], []) :=
  ⟨rfl, C8_theorem cfgDefault 0 malformedResp [] [] rfl⟩

theorem map_token_update (g : DeviceToken → DeviceToken)
    (hg : ∀ r, (g r).token = r.token) (db : List DeviceToken) :
    (db.map g).map (fun r => r.token) = db.map (fun r => r.token) := by
  rw [List.map_map]
  apply List.map_congr_left
  intro r _
  exact hg r

theorem deactivate_token_eq_map (t : String) (db : List DeviceToken)
    (h : (db.map (fun r => r.token)).Nodup) :
    (deactivate_token t db).2 =
      db.map (fun r => if r.token = t then r.deactivate else r) := by
  induction db with
  | nil => rfl
  | cons r rest ih =>
    rw [List.map_cons, List.nodup_cons] at h
    unfold deactivate_token
    by_cases hr : r.token = t
    · rw [if_pos hr, List.map_cons, if_pos hr]
      dsimp only
      congr 1
      symm
      have hnot : ∀ x ∈ rest, x.token ≠ t := by
        intro x hx hxt
        exact h.1 (by rw [hr, ← hxt]; exact List.mem_map_of_mem _ hx)
      calc rest.map (fun x => if x.token = t then x.deactivate else x)
          = rest.map id := by
            apply List.map_congr_left
            intro x hx
            rw [if_neg (hnot x hx)]
            rfl
        _ = rest := List.map_id rest
    · rw [if_neg hr, List.map_cons, if_neg hr]
      dsimp only
      congr 1
      exact ih h.2

theorem send_loop_spec (send : String → SendResult) (ts : List String) :
    ∀ (s f : Nat) (db : List DeviceToken),
      (db.map (fun r => r.token)).Nodup → ts.Nodup →
      ((send_loop send ts (s, f, db)).1 +
         (send_loop send ts (s, f, db)).2.1 = s + f + ts.length) ∧
      (send_loop send ts (s, f, db)).2.2 =
        db.map (fun r =>
          if r.token ∈ ts ∧ isPermFail (send r.token) = true
          then r.deactivate else r) := by
  induction ts with
  | nil =>
    intro s f db hdb _
    refine ⟨rfl, ?_⟩
    symm
    calc db.map (fun r =>
            if r.token ∈ ([] : List String) ∧ isPermFail (send r.token) = true
            then r.deactivate else r)
        = db.map id := by
          apply List.map_congr_left
          intro r _
          rw [if_neg (fun hc => by simpa using hc.1)]
          rfl
      _ = db := List.map_id db
  | cons t ts ih =>
    intro s f db hdb hts
    rw [List.nodup_cons] at hts
    obtain ⟨htn, hts2⟩ := hts
    unfold send_loop
    cases hsend : send t with
    | ok =>
      dsimp only
      obtain ⟨ihc, ihm⟩ := ih (s + 1) f db hdb hts2
      refine ⟨by rw [ihc]; simp; omega, ?_⟩
      rw [ihm]
      apply List.map_congr_left
      intro r _
      by_cases hrt : r.token = t
      · rw [if_neg, if_neg]
        · intro hc
          rw [hrt, hsend] at hc
          exact absurd hc.2 (by decide)
        · exact fun hc => htn (hrt ▸ hc.1)
      · have hmem : r.token ∈ t :: ts ↔ r.token ∈ ts := by simp [hrt]
        by_cases hc : r.token ∈ ts ∧ isPermFail (send r.token) = true
        · rw [if_pos hc, if_pos ⟨hmem.mpr hc.1, hc.2⟩]
        · rw [if_neg hc, if_neg (fun hc2 => hc ⟨hmem.mp hc2.1, hc2.2⟩)]
    | err perm =>
      cases perm with
      | false =>
        dsimp only
        obtain ⟨ihc, ihm⟩ := ih s (f + 1) db hdb hts2
        refine ⟨by rw [ihc]; simp; omega, ?_⟩
        rw [ihm]
        apply List.map_congr_left
        intro r _
        by_cases hrt : r.token = t
        · rw [if_neg, if_neg]
          · intro hc
            rw [hrt, hsend] at hc
            exact absurd hc.2 (by decide)
          · exact fun hc => htn (hrt ▸ hc.1)
        · have hmem : r.token ∈ t :: ts ↔ r.token ∈ ts := by simp [hrt]
          by_cases hc : r.token ∈ ts ∧ isPermFail (send r.token) = true
          · rw [if_pos hc, if_pos ⟨hmem.mpr hc.1, hc.2⟩]
          · rw [if_neg hc, if_neg (fun hc2 => hc ⟨hmem.mp hc2.1, hc2.2⟩)]
      | true =>
        dsimp only
        have hmap := deactivate_token_eq_map t db hdb
        have hdb2 : (((deactivate_token t db).2).map (fun r => r.token)).Nodup := by
          rw [hmap, map_token_update]
          · exact hdb
          · intro r
            by_cases hrt : r.token = t
            · rw [if_pos hrt]
              rfl
            · rw [if_neg hrt]
        obtain ⟨ihc, ihm⟩ := ih s (f + 1) (deactivate_token t db).2 hdb2 hts2
        refine ⟨by rw [ihc]; simp; omega, ?_⟩
        rw [ihm, hmap, List.map_map]
        apply List.map_congr_left
        intro r _
        by_cases hrt : r.token = t
        · have h1 : (if r.token = t then r.deactivate else r) = r.deactivate :=
            if_pos hrt
          simp only [Function.comp_apply, h1]
          rw [if_neg, if_pos ⟨by simp [hrt], by rw [hrt, hsend]; rfl⟩]
          intro hc
          have : r.deactivate.token = r.token := rfl
          rw [this, hrt] at hc
          exact htn hc.1
        · have h1 : (if r.token = t then r.deactivate else r) = r :=
            if_neg hrt
          simp only [Function.comp_apply, h1]
          have hmem : r.token ∈ t :: ts ↔ r.token ∈ ts := by simp [hrt]
          by_cases hc : r.token ∈ ts ∧ isPermFail (send r.token) = true
          · rw [if_pos hc, if_pos ⟨hmem.mpr hc.1, hc.2⟩]
          · rw [if_neg hc, if_neg (fun hc2 => hc ⟨hmem.mp hc2.1, hc2.2⟩)]

/-- C7: dispatch with distinct registered tokens attempts every active
endpoint independently — the success and failure counts sum to the number
of active endpoints; the resulting table is the original one with exactly
the active endpoints whose delivery failed with a permanently-invalid
token deactivated (all other records, and all fields other than the active
flag, are untouched); with zero active endpoints the call returns the
table unchanged with zero counts. -/
theorem C7_theorem (send : String → SendResult) (db : List DeviceToken)
    (h : (db.map (fun r => r.token)).Nodup) :
    (send_push_notification send db).1 +
        (send_push_notification send db).2.1 =
      (get_active_tokens db).length ∧
    (send_push_notification send db).2.2 =
      db.map (fun r =>
        if r.is_active = true ∧ isPermFail (send r.token) = true
        then r.deactivate else r) ∧
    (get_active_tokens db = [] →
      send_push_notification send db = (0, 0, db)) := by
  unfold send_push_notification
  by_cases hz : get_active_tokens db = []
  · rw [if_pos hz]
    have hact : ∀ r ∈ db, r.is_active = false := by
      intro r hr
      by_contra hc
      have hmem : r ∈ get_active_tokens db := by
        unfold get_active_tokens
        rw [List.mem_filter]
        exact ⟨hr, by simpa using hc⟩
      rw [hz] at hmem
      simp at hmem
    refine ⟨by rw [hz]; rfl, ?_, fun _ => rfl⟩
    symm
    calc db.map (fun r =>
            if r.is_active = true ∧ isPermFail (send r.token) = true
            then r.deactivate else r)
        = db.map id := by
          apply List.map_congr_left
          intro r hr
          rw [if_neg (fun hc => by rw [hact r hr] at hc; exact absurd hc.1 (by decide))]
          rfl
      _ = db := List.map_id db
  · rw [if_neg hz]
    have hts : ((get_active_tokens db).map (fun r => r.token)).Nodup := by
      have hsub : List.Sublist ((get_active_tokens db).map (fun r => r.token))
          (db.map (fun r => r.token)) :=
        List.Sublist.map _ (List.filter_sublist db)
      exact List.Nodup.sublist hsub h
    obtain ⟨hc, hm⟩ :=
      send_loop_spec send ((get_active_tokens db).map (fun r => r.token))
        0 0 db h hts
    refine ⟨by rw [hc]; simp, ?_, fun hcontra => absurd hcontra hz⟩
    rw [hm]
    apply List.map_congr_left
    intro r hr
    have hiff : r.token ∈ (get_active_tokens db).map (fun r => r.token) ↔
        r.is_active = true := by
      constructor
      · intro hmem
        rw [List.mem_map] at hmem
        obtain ⟨r2, hr2mem, hr2tok⟩ := hmem
        unfold get_active_tokens at hr2mem
        rw [List.mem_filter] at hr2mem
        have heq : r2 = r :=
          List.inj_on_of_nodup_map h hr2mem.1 hr hr2tok
        rw [← heq]
        simpa using hr2mem.2
      · intro hactr
        rw [List.mem_map]
        refine ⟨r, ?_, rfl⟩
        unfold get_active_tokens
        rw [List.mem_filter]
        exact ⟨hr, by simpa using hactr⟩
    by_cases hcond : r.is_active = true ∧ isPermFail (send r.token) = true
    · rw [if_pos ⟨hiff.mpr hcond.1, hcond.2⟩, if_pos hcond]
    · rw [if_neg (fun hc => hcond ⟨hiff.mp hc.1, hc.2⟩), if_neg hcond]

/-- Witness for C7: three active endpoints of which exactly token b fails
permanently. -/
theorem C7_witness :
    (dbEx.map (fun r => r.token)).Nodup ∧
    ((send_push_notification sendEx dbEx).1 +
        (send_push_notification sendEx dbEx).2.1 =
      (get_active_tokens dbEx).length ∧
     (send_push_notification sendEx dbEx).2.2 =
       dbEx.map (fun r =>
         if r.is_active = true ∧ isPermFail (sendEx r.token) = true
         then r.deactivate else r) ∧
     (get_active_tokens dbEx = [] →
       send_push_notification sendEx dbEx = (0, 0, dbEx))) :=
  ⟨by decide, C7_theorem sendEx dbEx (by decide)⟩

/-- C9: an opened high_aqi alert embeds in its message the configured
threshold, the configured window duration and the window mean aqi rounded
to a nearest integer (the rounded display value differs from the exact
arithmetic mean by at most one half); in the spec scenario (threshold 150,
duration 15, window aqi values 160, 170, 180) the message reports the
average as 170. -/
theorem C9_theorem :
    (∀ (s : Int) (n : Nat), 0 < n →
      |(round_div_half_even s n : ℚ) - (s : ℚ) / (n : ℚ)| ≤ 1/2) ∧
    (∀ (cfg : AlertConfig) (now : Int) (ms : List Measurement)
       (alerts : List Alert),
      recent_window cfg now ms ≠ [] →
      (∀ m ∈ recent_window cfg now ms, cfg.aqi_threshold < m.aqi) →
      find_active "high_aqi" alerts = none →
      (check_aqi_alert cfg now ms alerts).1 =
        some (new_aqi_alert cfg now ms alerts) ∧
      (new_aqi_alert cfg now ms alerts).message =
        mk_aqi_message cfg.aqi_threshold cfg.aqi_duration_minutes
          (round_div_half_even (sum_aqi (recent_window cfg now ms))
            (recent_window cfg now ms).length) ∧
      avg_aqi (recent_window cfg now ms) =
        (sum_aqi (recent_window cfg now ms) : ℚ) /
          ((recent_window cfg now ms).length : ℚ)) ∧
    (new_aqi_alert cfgDefault 1000 msEx []).message =
      "AQI has exceeded 150 continuously for 15 minutes. Current average: 170" ∧
    round_div_half_even (sum_aqi (recent_window cfgDefault 1000 msEx))
      (recent_window cfgDefault 1000 msEx).length = 170 := by
  refine ⟨round_div_half_even_nearest, ?_, by decide, by decide⟩
  intro cfg now ms alerts h1 h2 h3
  refine ⟨?_, rfl, rfl⟩
  rw [check_aqi_alert_creates cfg now ms h1 h2 h3]

/-- Witness for C9: the spec scenario instantiated. -/
theorem C9_witness :
    (0 < 3 ∧ |(round_div_half_even 510 3 : ℚ) - (510 : ℚ) / ((3 : Nat) : ℚ)| ≤ 1/2) ∧
    (recent_window cfgDefault 1000 msEx ≠ [] ∧
     (∀ m ∈ recent_window cfgDefault 1000 msEx,
        cfgDefault.aqi_threshold < m.aqi) ∧
     find_active "high_aqi" ([] : List Alert) = none ∧
     ((check_aqi_alert cfgDefault 1000 msEx []).1 =
        some (new_aqi_alert cfgDefault 1000 msEx []) ∧
      (new_aqi_alert cfgDefault 1000 msEx []).message =
        mk_aqi_message cfgDefault.aqi_threshold cfgDefault.aqi_duration_minutes
          (round_div_half_even (sum_aqi (recent_window cfgDefault 1000 msEx))
            (recent_window cfgDefault 1000 msEx).length) ∧
      avg_aqi (recent_window cfgDefault 1000 msEx) =
        (sum_aqi (recent_window cfgDefault 1000 msEx) : ℚ) /
          ((recent_window cfgDefault 1000 msEx).length : ℚ))) :=
  ⟨⟨by decide, C9_theorem.1 510 3 (by decide)⟩,
   ⟨by decide, by decide, by decide,
    C9_theorem.2.1 cfgDefault 1000 msEx [] (by decide) (by decide) (by decide)⟩⟩

/-- C10: deactivating a token that was never registered returns False and
leaves the table unchanged; deactivating a registered token returns True
and flips exactly that record to inactive — its id, token and creation
time, and every other record, are untouched. -/
theorem C10_theorem (db : List DeviceToken) (t : String) :
    ((∀ r ∈ db, r.token ≠ t) → deactivate_token t db = (false, db)) ∧
    (∀ (pre : List DeviceToken) (r : DeviceToken) (post : List DeviceToken),
      db = pre ++ r :: post → (∀ r2 ∈ pre, r2.token ≠ t) → r.token = t →
      deactivate_token t db =
        (true, pre ++ { r with is_active := false } :: post)) := by
  constructor
  · intro h
    induction db with
    | nil => rfl
    | cons r rest ih =>
      unfold deactivate_token
      rw [if_neg (h r (by simp))]
      have := ih (fun x hx => h x (by simp [hx]))
      rw [this]
  · intro pre
    induction pre generalizing db with
    | nil =>
      intro r post hdb _ hr
      subst hdb
      unfold deactivate_token
      dsimp only [List.nil_append]
      rw [if_pos hr]
      rfl
    | cons p pre ih =>
      intro r post hdb hpre hr
      subst hdb
      unfold deactivate_token
      dsimp only [List.cons_append]
      rw [if_neg (hpre p (by simp))]
      have := ih (pre ++ r :: post) r post rfl
        (fun x hx => hpre x (by simp [hx])) hr
      rw [this]

/-- Witness for C10: the three-token table, one unknown token and one
registered token. -/
theorem C10_witness :
    deactivate_token "zzz" dbEx = (false, dbEx) ∧
    deactivate_token "b" dbEx =
      (true,
       [({ id := 1, token := "a", created_at := 0, is_active := true } :
           DeviceToken)] ++
         ({ id := 2, token := "b", created_at := 0, is_active := false } :
           DeviceToken) ::
           [{ id := 3, token := "c", created_at := 0, is_active := true }]) :=
  ⟨(C10_theorem dbEx "zzz").1 (by decide),
   (C10_theorem dbEx "b").2
     [{ id := 1, token := "a", created_at := 0, is_active := true }]
     { id := 2, token := "b", created_at := 0, is_active := true }
     [{ id := 3, token := "c", created_at := 0, is_active := true }]
     (by decide) (by decide) (by decide)⟩

end Pollution
